import Mathlib

/-!
Shallow embedding of the Exa MCP server core (`server.py`): the eight
operation functions, the search-result enrichment strategy, and the two
tool dispatchers (the one registered by `build_mcp_server` and the legacy
one defined inline in `main`).  Upstream HTTP traffic is modelled by an
`Upstream` record of response functions, and every operation additionally
reports the list of HTTP requests it issued, so that claims of the form
"no network call is attempted" are statable.
-/

/-- A single ASCII apostrophe, used inside the error-message literals of the
source (for example in the message for a missing required argument). -/
def squote : String := String.singleton (Char.ofNat 39)

/-- Wrap a string in ASCII apostrophes, as the source message literals do. -/
def quoted (s : String) : String := squote ++ s ++ squote

/-- The non-breaking hyphen character U+2011 that appears inside two of the
error-message literals of the source file. -/
def nbHyphen : String := String.singleton (Char.ofNat 0x2011)

/-- Python-like JSON values: the universe of tool-argument values and of
payload entries sent upstream. -/
inductive PyVal where
  | none
  | str (s : String)
  | int (n : Int)
  | bool (b : Bool)
  | list (xs : List PyVal)
  | dict (xs : List (String × PyVal))
deriving Repr, Inhabited

/-- Python truthiness on the embedded values: `None`, empty string, zero,
`False`, empty list and empty dict are falsy, everything else truthy. -/
def PyVal.truthy : PyVal → Bool
  | .none => false
  | .str s => !(s == "")
  | .int n => !(n == 0)
  | .bool b => b
  | .list xs => !xs.isEmpty
  | .dict xs => !xs.isEmpty

/-- Python `isinstance(x, list)` on the embedded values. -/
def PyVal.isList : PyVal → Bool
  | .list _ => true
  | _ => false

/-- The argument bag of a tool call: a finite string-keyed map
(`arguments: dict` in the source). -/
def Args : Type := List (String × PyVal)

/-- Python `arguments.get(k, d)`: value stored under `k`, or default `d`. -/
def argGetD (args : Args) (k : String) (d : PyVal) : PyVal :=
  match List.lookup k args with
  | some v => v
  | Option.none => d

/-- Python `arguments.get(k)`: value stored under `k`, or `None`. -/
def argGet (args : Args) (k : String) : PyVal :=
  argGetD args k PyVal.none

/-- A subpage entry of an upstream contents response: the fields the code
reads via `sub.get(...)`, each `none` when absent in the JSON. -/
structure UpSub where
  title : Option String
  url : Option String
  text : Option String
deriving Repr, DecidableEq

/-- An item of an upstream results list: the fields the code reads via
`item.get(...)`, each absent field modelled as `none` (Python `None`).
The `score` field is passed through untouched, so it stays a `PyVal`;
`subpages` models the nested list read by the subpage-crawl operation. -/
structure UpItem where
  title : Option String := Option.none
  url : Option String := Option.none
  text : Option String := Option.none
  summary : Option String := Option.none
  score : PyVal := PyVal.none
  subpages : List UpSub := []
deriving Repr

/-- Python `a or d` for an optional string `a` (absent and empty are falsy):
`a` when present and non-empty, else `d`. -/
def pyOrD (a : Option String) (d : String) : String :=
  match a with
  | some s => if s = "" then d else s
  | Option.none => d

/-- The snippet/text fallback chain of the source:
`item.get("text") or item.get("summary") or ""`. -/
def snippetOf (it : UpItem) : String :=
  pyOrD it.text (pyOrD it.summary "")

/-- Python list slicing `l[: n]` for an integer bound `n`: clamps a
non-negative bound at the length, and a negative bound counts from the end. -/
def pySliceTo {α : Type} (n : Int) (l : List α) : List α :=
  if 0 ≤ n then l.take n.toNat else l.take ((l.length : Int) + n).toNat

/-- Python list slicing `l[: v]` for a dynamic bound: `None` keeps the whole
list, ints and bools slice, any other type raises a `TypeError`. -/
def pySliceToV {α : Type} (v : PyVal) (l : List α) : Except String (List α) :=
  match v with
  | .none => Except.ok l
  | .int n => Except.ok (pySliceTo n l)
  | .bool b => Except.ok (pySliceTo (if b then 1 else 0) l)
  | _ => Except.error "slice indices must be integers or None or have an __index__ method"

/-- One upstream HTTP request, recording the endpoint hit and the payload
sent (the research-poll GET records the task id interpolated in its URL). -/
inductive Req where
  | search (payload : PyVal)
  | contents (payload : PyVal)
  | findSimilar (payload : PyVal)
  | answer (payload : PyVal)
  | researchStart (payload : PyVal)
  | researchPoll (taskId : PyVal)
deriving Repr

/-- The behaviour of the upstream Exa service: for each endpoint, a function
from the request payload to either a raised-exception message (non-2xx
status, network failure) or the parsed `results` list / JSON body.  A reply
without a `results` key is represented by the empty list, absorbing the
`data.get("results", [])` defaults of the source. -/
structure Upstream where
  search : PyVal → Except String (List UpItem)
  contents : PyVal → Except String (List UpItem)
  findSimilar : PyVal → Except String (List UpItem)
  answer : PyVal → Except String PyVal
  researchStart : PyVal → Except String PyVal
  researchPoll : PyVal → Except String PyVal

/-- Result of running one operation function: the value returned or the
message of the exception raised, together with the upstream requests issued. -/
structure OpOut (α : Type) where
  res : Except String α
  reqs : List Req

/-- A normalized search result stub: `{title, url, snippet}`. -/
structure SearchStub where
  title : Option String
  url : Option String
  snippet : String
deriving Repr, DecidableEq

/-- A normalized content record: `{title, url, text}`. -/
structure ContentDoc where
  title : Option String
  url : Option String
  text : Option String
deriving Repr, DecidableEq

/-- A normalized find-similar record: `{title, url, score, text}`; `text` is
`none` (Python `None`, the explicit absent marker) when text was not
requested. -/
structure SimilarDoc where
  title : Option String
  url : Option String
  score : PyVal
  text : Option String
deriving Repr

/-- The result of the subpage-crawl operation: the root page and its
subpages. -/
structure SubpageBundle where
  page : ContentDoc
  subpages : List ContentDoc
deriving Repr

/-- The message of the exception raised by every operation function when the
credential is empty. -/
def exaKeyMsg : String := "EXA_API_KEY environment variable is not set"

/-- The message raised by fetch-one and fetch-subpages on an empty upstream
results list. -/
def noContentMsg : String := "No content returned from Exa for the given URL"

/-- The message raised by `exa_fetch_contents` on a falsy `urls` argument
(the source literal spells non-empty with the non-breaking hyphen U+2011). -/
def urlsOpMsg : String :=
  "Argument " ++ quoted "urls" ++ " must be a non" ++ nbHyphen ++ "empty list of URLs"

/-- The payload of a search request:
`{"query": ..., "num_results": ..., "text": false}`. -/
def searchPayload (query num_results : PyVal) : PyVal :=
  PyVal.dict [("query", query), ("num_results", num_results), ("text", PyVal.bool false)]

/-- The operation `exa_web_search`: credential check, one POST to the search
endpoint, then reshape of the first `num_results` items to
`{title, url, snippet}` stubs with the text-or-summary-or-empty fallback. -/
def exa_web_search (env : Upstream) (apiKey : String) (query num_results : PyVal) :
    OpOut (List SearchStub) :=
  if apiKey = "" then ⟨Except.error exaKeyMsg, []⟩
  else
    let payload := searchPayload query num_results
    match env.search payload with
    | Except.error m => ⟨Except.error m, [Req.search payload]⟩
    | Except.ok items =>
      match pySliceToV num_results items with
      | Except.error m => ⟨Except.error m, [Req.search payload]⟩
      | Except.ok taken =>
        ⟨Except.ok (taken.map fun it => ⟨it.title, it.url, snippetOf it⟩),
          [Req.search payload]⟩

/-- The payload of a findSimilar request: `{"url": ..., "text": ...}`. -/
def findSimilarPayload (url include_text : PyVal) : PyVal :=
  PyVal.dict [("url", url), ("text", include_text)]

/-- The operation `exa_find_similar_links`: credential check, one POST to the
findSimilar endpoint, then reshape of the first `num_results` items to
`{title, url, score, text}`, where `text` is the text-or-summary-or-empty
fallback when `include_text` is truthy and `None` otherwise. -/
def exa_find_similar_links (env : Upstream) (apiKey : String)
    (url include_text num_results : PyVal) : OpOut (List SimilarDoc) :=
  if apiKey = "" then ⟨Except.error exaKeyMsg, []⟩
  else
    let payload := findSimilarPayload url include_text
    match env.findSimilar payload with
    | Except.error m => ⟨Except.error m, [Req.findSimilar payload]⟩
    | Except.ok items =>
      match pySliceToV num_results items with
      | Except.error m => ⟨Except.error m, [Req.findSimilar payload]⟩
      | Except.ok taken =>
        ⟨Except.ok (taken.map fun it =>
            ⟨it.title, it.url, it.score,
              if include_text.truthy then some (snippetOf it) else Option.none⟩),
          [Req.findSimilar payload]⟩

/-- The payload of an answer request: `{"query": ..., "text": ...}`. -/
def answerPayload (query include_text : PyVal) : PyVal :=
  PyVal.dict [("query", query), ("text", include_text)]

/-- The operation `exa_answer_question`: credential check, one POST to the
answer endpoint, JSON body passed through unchanged. -/
def exa_answer_question (env : Upstream) (apiKey : String)
    (query include_text : PyVal) : OpOut PyVal :=
  if apiKey = "" then ⟨Except.error exaKeyMsg, []⟩
  else
    let payload := answerPayload query include_text
    match env.answer payload with
    | Except.error m => ⟨Except.error m, [Req.answer payload]⟩
    | Except.ok data => ⟨Except.ok data, [Req.answer payload]⟩

/-- The payload of a research-task creation request: `{"instructions": ...}`
plus `model` when truthy and `output.schema` when `output_schema` is truthy. -/
def researchStartPayload (instructions model output_schema : PyVal) : PyVal :=
  PyVal.dict
    ([("instructions", instructions)] ++
      (if model.truthy then [("model", model)] else []) ++
      (if output_schema.truthy then
        [("output", PyVal.dict [("schema", output_schema)])] else []))

/-- The operation `exa_research_start`: credential check, one POST to the
research-tasks endpoint, JSON body passed through unchanged. -/
def exa_research_start (env : Upstream) (apiKey : String)
    (instructions model output_schema : PyVal) : OpOut PyVal :=
  if apiKey = "" then ⟨Except.error exaKeyMsg, []⟩
  else
    let payload := researchStartPayload instructions model output_schema
    match env.researchStart payload with
    | Except.error m => ⟨Except.error m, [Req.researchStart payload]⟩
    | Except.ok data => ⟨Except.ok data, [Req.researchStart payload]⟩

/-- The operation `exa_research_poll`: credential check, one GET of the
task-specific URL, JSON body passed through unchanged. -/
def exa_research_poll (env : Upstream) (apiKey : String) (task_id : PyVal) :
    OpOut PyVal :=
  if apiKey = "" then ⟨Except.error exaKeyMsg, []⟩
  else
    match env.researchPoll task_id with
    | Except.error m => ⟨Except.error m, [Req.researchPoll task_id]⟩
    | Except.ok data => ⟨Except.ok data, [Req.researchPoll task_id]⟩

/-- The payload of a single-URL contents request:
`{"urls": [url], "text": true}`. -/
def contentsOnePayload (url : PyVal) : PyVal :=
  PyVal.dict [("urls", PyVal.list [url]), ("text", PyVal.bool true)]

/-- The operation `exa_fetch_content`: credential check, one POST to the
contents endpoint for a single URL; an empty results list raises the
no-content error, otherwise the first result is reshaped to
`{title, url, text}`. -/
def exa_fetch_content (env : Upstream) (apiKey : String) (url : PyVal) :
    OpOut ContentDoc :=
  if apiKey = "" then ⟨Except.error exaKeyMsg, []⟩
  else
    let payload := contentsOnePayload url
    match env.contents payload with
    | Except.error m => ⟨Except.error m, [Req.contents payload]⟩
    | Except.ok results =>
      match results with
      | [] => ⟨Except.error noContentMsg, [Req.contents payload]⟩
      | r :: _ => ⟨Except.ok ⟨r.title, r.url, r.text⟩, [Req.contents payload]⟩

/-- The payload of a bulk contents request: `{"urls": ..., "text": true}`
plus `livecrawl` when truthy. -/
def contentsManyPayload (urls livecrawl : PyVal) : PyVal :=
  PyVal.dict
    ([("urls", urls), ("text", PyVal.bool true)] ++
      (if livecrawl.truthy then [("livecrawl", livecrawl)] else []))

/-- The operation `exa_fetch_contents`: credential check, then a validation
raising on a falsy `urls` value, one POST to the contents endpoint, and a
reshape of every returned item to `{title, url, text}` in upstream order. -/
def exa_fetch_contents (env : Upstream) (apiKey : String)
    (urls livecrawl : PyVal) : OpOut (List ContentDoc) :=
  if apiKey = "" then ⟨Except.error exaKeyMsg, []⟩
  else if !urls.truthy then ⟨Except.error urlsOpMsg, []⟩
  else
    let payload := contentsManyPayload urls livecrawl
    match env.contents payload with
    | Except.error m => ⟨Except.error m, [Req.contents payload]⟩
    | Except.ok items =>
      ⟨Except.ok (items.map fun it => ⟨it.title, it.url, it.text⟩),
        [Req.contents payload]⟩

/-- The payload of a subpage-crawl request:
`{"urls": [url], "text": true, "subpages": N}` plus `subpage_target` and
`livecrawl` when truthy. -/
def subpagesPayload (url subpages subpage_target livecrawl : PyVal) : PyVal :=
  PyVal.dict
    ([("urls", PyVal.list [url]), ("text", PyVal.bool true), ("subpages", subpages)] ++
      (if subpage_target.truthy then [("subpage_target", subpage_target)] else []) ++
      (if livecrawl.truthy then [("livecrawl", livecrawl)] else []))

/-- The operation `exa_fetch_subpages`: credential check, one POST to the
contents endpoint with subpage parameters; an empty results list raises the
no-content error, otherwise the first result becomes the root page and its
nested subpages list is reshaped to `{title, url, text}` records. -/
def exa_fetch_subpages (env : Upstream) (apiKey : String)
    (url subpages subpage_target livecrawl : PyVal) : OpOut SubpageBundle :=
  if apiKey = "" then ⟨Except.error exaKeyMsg, []⟩
  else
    let payload := subpagesPayload url subpages subpage_target livecrawl
    match env.contents payload with
    | Except.error m => ⟨Except.error m, [Req.contents payload]⟩
    | Except.ok results =>
      match results with
      | [] => ⟨Except.error noContentMsg, [Req.contents payload]⟩
      | r :: _ =>
        ⟨Except.ok ⟨⟨r.title, r.url, r.text⟩,
            r.subpages.map fun s => ⟨s.title, s.url, s.text⟩⟩,
          [Req.contents payload]⟩

/-- Pass an optional string as a Python value (`item.get("url")` is either a
string or `None`). -/
def optPy : Option String → PyVal
  | some s => PyVal.str s
  | Option.none => PyVal.none

/-- The urls collected by the enrichment step of the dispatcher:
`[item.get("url") for item in results if item.get("url")]`. -/
def stubUrls (results : List SearchStub) : PyVal :=
  PyVal.list (results.filterMap fun item =>
    match item.url with
    | some s => if s = "" then Option.none else some (PyVal.str s)
    | Option.none => Option.none)

/-- Lookup in the dict comprehension
`{item.get("url"): item for item in contents}`: a later entry with the same
key overwrites an earlier one, so the value found is the LAST matching item. -/
def lookupLast (k : Option String) : List ContentDoc → Option ContentDoc
  | [] => Option.none
  | c :: rest =>
    match lookupLast k rest with
    | some r => some r
    | Option.none => if c.url = k then some c else Option.none

/-- An element of the final enriched list: either an untouched search stub
(keys `{title,url,snippet}`) or a fetched content record
(keys `{title,url,text}`), exactly the two dict shapes the source mixes. -/
inductive EnrichedDoc where
  | stub (s : SearchStub)
  | content (c : ContentDoc)
deriving Repr, DecidableEq

/-- The bulk-success arm of the enrichment strategy: build the url lookup
from the bulk reply and map each original stub to the fetched record for its
url when present, keeping the stub unchanged otherwise. -/
def enrichBulk (results : List SearchStub) (contents : List ContentDoc) :
    List EnrichedDoc :=
  results.map fun item =>
    match lookupLast item.url contents with
    | some c => EnrichedDoc.content c
    | Option.none => EnrichedDoc.stub item

/-- The bulk-failure arm of the enrichment strategy: one `exa_fetch_content`
call per original stub in original order, keeping a stub unchanged when its
individual fetch raises. -/
def enrichFallback (env : Upstream) (apiKey : String) :
    List SearchStub → List EnrichedDoc × List Req
  | [] => ([], [])
  | item :: rest =>
    let one := exa_fetch_content env apiKey (optPy item.url)
    let tail := enrichFallback env apiKey rest
    match one.res with
    | Except.ok c => (EnrichedDoc.content c :: tail.1, one.reqs ++ tail.2)
    | Except.error _ => (EnrichedDoc.stub item :: tail.1, one.reqs ++ tail.2)

/-- Escape the two JSON-significant characters; models the escaping done by
the JSON serializer of the standard library. -/
def jsonEscapeChar (c : Char) : String :=
  if c = Char.ofNat 34 then "\\\""
  else if c = Char.ofNat 92 then "\\\\"
  else String.singleton c

/-- Render a string as a JSON string literal. -/
def jsonStr (s : String) : String :=
  "\"" ++ String.join (s.toList.map jsonEscapeChar) ++ "\""

mutual

/-- Render an embedded Python value as JSON text; models `json.dumps` (the
layout is compact where the source passes `indent=2`; no claim depends on
the whitespace of a success payload). -/
def dumps : PyVal → String
  | PyVal.none => "null"
  | PyVal.str s => jsonStr s
  | PyVal.int n => toString n
  | PyVal.bool b => if b then "true" else "false"
  | PyVal.list xs => "[" ++ dumpsList xs ++ "]"
  | PyVal.dict xs => "\x7b" ++ dumpsDict xs ++ "\x7d"

/-- Render the elements of a JSON array. -/
def dumpsList : List PyVal → String
  | [] => ""
  | [x] => dumps x
  | x :: xs => dumps x ++ ", " ++ dumpsList xs

/-- Render the entries of a JSON object. -/
def dumpsDict : List (String × PyVal) → String
  | [] => ""
  | [(k, v)] => jsonStr k ++ ": " ++ dumps v
  | (k, v) :: xs => jsonStr k ++ ": " ++ dumps v ++ ", " ++ dumpsDict xs

end

/-- The dict a search stub serializes as. -/
def stubPy (s : SearchStub) : PyVal :=
  PyVal.dict [("title", optPy s.title), ("url", optPy s.url), ("snippet", PyVal.str s.snippet)]

/-- The dict a content record serializes as. -/
def contentPy (c : ContentDoc) : PyVal :=
  PyVal.dict [("title", optPy c.title), ("url", optPy c.url), ("text", optPy c.text)]

/-- The dict a find-similar record serializes as. -/
def similarPy (d : SimilarDoc) : PyVal :=
  PyVal.dict [("title", optPy d.title), ("url", optPy d.url), ("score", d.score),
    ("text", optPy d.text)]

/-- The dict an enriched element serializes as (stub or content shape). -/
def enrichedPy : EnrichedDoc → PyVal
  | EnrichedDoc.stub s => stubPy s
  | EnrichedDoc.content c => contentPy c

/-- The dict a subpage bundle serializes as. -/
def bundlePy (b : SubpageBundle) : PyVal :=
  PyVal.dict [("page", contentPy b.page),
    ("subpages", PyVal.list (b.subpages.map contentPy))]

/-- A text content item of the tool-invocation protocol
(`types.TextContent(type="text", text=...)`). -/
structure TextContent where
  type : String
  text : String
deriving Repr, DecidableEq

/-- The outcome of one `call_tool` invocation: the returned content items and
the upstream requests issued while handling it. -/
structure CallOut where
  contents : List TextContent
  reqs : List Req
deriving Repr

/-- The missing-required-argument message raised by the dispatchers. -/
def requiredMsg (arg : String) : String :=
  "Argument " ++ quoted arg ++ " is required"

/-- The empty-or-non-list `urls` message of the dispatcher registered by
`build_mcp_server` (spelled with the ASCII hyphen-minus). -/
def urlsDispatchMsg : String :=
  "Argument " ++ quoted "urls" ++ " must be a non-empty list"

/-- The empty-or-non-list `urls` message of the legacy dispatcher defined
inline in `main` (spelled with the non-breaking hyphen U+2011). -/
def urlsDispatchMsgLegacy : String :=
  "Argument " ++ quoted "urls" ++ " must be a non" ++ nbHyphen ++ "empty list"

/-- The non-list `subpage_target` message raised by both dispatchers. -/
def subpageTargetMsg : String :=
  "Argument " ++ quoted "subpage_target" ++ " must be an array of strings if provided"

/-- The text returned for a tool name absent from the catalog. -/
def unknownToolText (name : String) : String :=
  "Error: Unknown tool " ++ quoted name

/-- The body of the `try` block of the `call_tool` dispatcher registered by
`build_mcp_server` (lines 681-763 of the source): argument extraction and
validation, invocation of the matching operation function — composed with
the enrichment strategy for a text-including search — and serialization of
the success value.  `Except.error` is a raised exception reaching the
`except` clause; `Except.ok` is the text of the single returned item. -/
def call_tool_body (env : Upstream) (apiKey : String) (name : String) (args : Args) :
    OpOut String :=
  if name = "exa_web_search" then
    let query := argGet args "query"
    if !query.truthy then ⟨Except.error (requiredMsg "query"), []⟩
    else
      let num_results := argGetD args "num_results" (PyVal.int 3)
      let include_text := argGetD args "include_text" (PyVal.bool false)
      let sr := exa_web_search env apiKey query num_results
      match sr.res with
      | Except.error m => ⟨Except.error m, sr.reqs⟩
      | Except.ok results =>
        if include_text.truthy then
          let bulk := exa_fetch_contents env apiKey (stubUrls results) PyVal.none
          match bulk.res with
          | Except.ok contents =>
            ⟨Except.ok (dumps (PyVal.list ((enrichBulk results contents).map enrichedPy))),
              sr.reqs ++ bulk.reqs⟩
          | Except.error _ =>
            let fb := enrichFallback env apiKey results
            ⟨Except.ok (dumps (PyVal.list (fb.1.map enrichedPy))),
              sr.reqs ++ bulk.reqs ++ fb.2⟩
        else
          ⟨Except.ok (dumps (PyVal.list (results.map stubPy))), sr.reqs⟩
  else if name = "exa_fetch_content" then
    let url := argGet args "url"
    if !url.truthy then ⟨Except.error (requiredMsg "url"), []⟩
    else
      let one := exa_fetch_content env apiKey url
      match one.res with
      | Except.error m => ⟨Except.error m, one.reqs⟩
      | Except.ok c => ⟨Except.ok (dumps (contentPy c)), one.reqs⟩
  else if name = "exa_find_similar_links" then
    let url := argGet args "url"
    if !url.truthy then ⟨Except.error (requiredMsg "url"), []⟩
    else
      let include_text := argGetD args "include_text" (PyVal.bool false)
      let num_results := argGetD args "num_results" (PyVal.int 3)
      let sim := exa_find_similar_links env apiKey url include_text num_results
      match sim.res with
      | Except.error m => ⟨Except.error m, sim.reqs⟩
      | Except.ok docs =>
        ⟨Except.ok (dumps (PyVal.list (docs.map similarPy))), sim.reqs⟩
  else if name = "exa_fetch_contents" then
    let urls := argGet args "urls"
    if !urls.truthy || !urls.isList then ⟨Except.error urlsDispatchMsg, []⟩
    else
      let livecrawl := argGet args "livecrawl"
      let many := exa_fetch_contents env apiKey urls livecrawl
      match many.res with
      | Except.error m => ⟨Except.error m, many.reqs⟩
      | Except.ok docs =>
        ⟨Except.ok (dumps (PyVal.list (docs.map contentPy))), many.reqs⟩
  else if name = "exa_fetch_subpages" then
    let url := argGet args "url"
    if !url.truthy then ⟨Except.error (requiredMsg "url"), []⟩
    else
      let subpages := argGetD args "subpages" (PyVal.int 5)
      let subpage_target := argGet args "subpage_target"
      if subpage_target.truthy && !subpage_target.isList then
        ⟨Except.error subpageTargetMsg, []⟩
      else
        let livecrawl := argGet args "livecrawl"
        let sp := exa_fetch_subpages env apiKey url subpages subpage_target livecrawl
        match sp.res with
        | Except.error m => ⟨Except.error m, sp.reqs⟩
        | Except.ok b => ⟨Except.ok (dumps (bundlePy b)), sp.reqs⟩
  else if name = "exa_answer_question" then
    let query := argGet args "query"
    if !query.truthy then ⟨Except.error (requiredMsg "query"), []⟩
    else
      let include_text := argGetD args "include_text" (PyVal.bool false)
      let ans := exa_answer_question env apiKey query include_text
      match ans.res with
      | Except.error m => ⟨Except.error m, ans.reqs⟩
      | Except.ok data => ⟨Except.ok (dumps data), ans.reqs⟩
  else if name = "exa_research_start" then
    let instructions := argGet args "instructions"
    if !instructions.truthy then ⟨Except.error (requiredMsg "instructions"), []⟩
    else
      let model := argGet args "model"
      let output_schema := argGet args "output_schema"
      let rs := exa_research_start env apiKey instructions model output_schema
      match rs.res with
      | Except.error m => ⟨Except.error m, rs.reqs⟩
      | Except.ok data => ⟨Except.ok (dumps data), rs.reqs⟩
  else if name = "exa_research_poll" then
    let task_id := argGet args "task_id"
    if !task_id.truthy then ⟨Except.error (requiredMsg "task_id"), []⟩
    else
      let rp := exa_research_poll env apiKey task_id
      match rp.res with
      | Except.error m => ⟨Except.error m, rp.reqs⟩
      | Except.ok data => ⟨Except.ok (dumps data), rp.reqs⟩
  else
    ⟨Except.ok (unknownToolText name), []⟩

/-- The `call_tool` dispatcher registered by `build_mcp_server`: run the try
block and convert a raised exception of message `m` into the single text
item `"Error: " ++ m`; a normal return is the single text item itself. -/
def call_tool (env : Upstream) (apiKey : String) (name : String) (args : Args) :
    CallOut :=
  let d := call_tool_body env apiKey name args
  match d.res with
  | Except.ok t => ⟨[⟨"text", t⟩], d.reqs⟩
  | Except.error m => ⟨[⟨"text", "Error: " ++ m⟩], d.reqs⟩

/-- The body of the `try` block of the legacy `call_tool` dispatcher defined
inline in `main` (lines 1026-1205 of the source).  It repeats the logic of
`call_tool_body` branch for branch, including the two unreachable duplicate
`elif` branches for `exa_fetch_contents` and `exa_fetch_subpages`, and spells
the empty-`urls` validation message with the non-breaking hyphen U+2011
where the builder dispatcher uses the ASCII hyphen-minus. -/
def call_tool_legacy_body (env : Upstream) (apiKey : String) (name : String)
    (args : Args) : OpOut String :=
  if name = "exa_web_search" then
    let query := argGet args "query"
    if !query.truthy then ⟨Except.error (requiredMsg "query"), []⟩
    else
      let num_results := argGetD args "num_results" (PyVal.int 3)
      let include_text := argGetD args "include_text" (PyVal.bool false)
      let sr := exa_web_search env apiKey query num_results
      match sr.res with
      | Except.error m => ⟨Except.error m, sr.reqs⟩
      | Except.ok results =>
        if include_text.truthy then
          let bulk := exa_fetch_contents env apiKey (stubUrls results) PyVal.none
          match bulk.res with
          | Except.ok contents =>
            ⟨Except.ok (dumps (PyVal.list ((enrichBulk results contents).map enrichedPy))),
              sr.reqs ++ bulk.reqs⟩
          | Except.error _ =>
            let fb := enrichFallback env apiKey results
            ⟨Except.ok (dumps (PyVal.list (fb.1.map enrichedPy))),
              sr.reqs ++ bulk.reqs ++ fb.2⟩
        else
          ⟨Except.ok (dumps (PyVal.list (results.map stubPy))), sr.reqs⟩
  else if name = "exa_fetch_content" then
    let url := argGet args "url"
    if !url.truthy then ⟨Except.error (requiredMsg "url"), []⟩
    else
      let one := exa_fetch_content env apiKey url
      match one.res with
      | Except.error m => ⟨Except.error m, one.reqs⟩
      | Except.ok c => ⟨Except.ok (dumps (contentPy c)), one.reqs⟩
  else if name = "exa_find_similar_links" then
    let url := argGet args "url"
    if !url.truthy then ⟨Except.error (requiredMsg "url"), []⟩
    else
      let include_text := argGetD args "include_text" (PyVal.bool false)
      let num_results := argGetD args "num_results" (PyVal.int 3)
      let sim := exa_find_similar_links env apiKey url include_text num_results
      match sim.res with
      | Except.error m => ⟨Except.error m, sim.reqs⟩
      | Except.ok docs =>
        ⟨Except.ok (dumps (PyVal.list (docs.map similarPy))), sim.reqs⟩
  else if name = "exa_fetch_contents" then
    let urls := argGet args "urls"
    if !urls.truthy || !urls.isList then ⟨Except.error urlsDispatchMsgLegacy, []⟩
    else
      let livecrawl := argGet args "livecrawl"
      let many := exa_fetch_contents env apiKey urls livecrawl
      match many.res with
      | Except.error m => ⟨Except.error m, many.reqs⟩
      | Except.ok docs =>
        ⟨Except.ok (dumps (PyVal.list (docs.map contentPy))), many.reqs⟩
  else if name = "exa_fetch_subpages" then
    let url := argGet args "url"
    if !url.truthy then ⟨Except.error (requiredMsg "url"), []⟩
    else
      let subpages := argGetD args "subpages" (PyVal.int 5)
      let subpage_target := argGet args "subpage_target"
      if subpage_target.truthy && !subpage_target.isList then
        ⟨Except.error subpageTargetMsg, []⟩
      else
        let livecrawl := argGet args "livecrawl"
        let sp := exa_fetch_subpages env apiKey url subpages subpage_target livecrawl
        match sp.res with
        | Except.error m => ⟨Except.error m, sp.reqs⟩
        | Except.ok b => ⟨Except.ok (dumps (bundlePy b)), sp.reqs⟩
  else if name = "exa_fetch_contents" then
    let urls := argGet args "urls"
    if !urls.truthy || !urls.isList then ⟨Except.error urlsDispatchMsgLegacy, []⟩
    else
      let livecrawl := argGet args "livecrawl"
      let many := exa_fetch_contents env apiKey urls livecrawl
      match many.res with
      | Except.error m => ⟨Except.error m, many.reqs⟩
      | Except.ok docs =>
        ⟨Except.ok (dumps (PyVal.list (docs.map contentPy))), many.reqs⟩
  else if name = "exa_fetch_subpages" then
    let url := argGet args "url"
    if !url.truthy then ⟨Except.error (requiredMsg "url"), []⟩
    else
      let subpages := argGetD args "subpages" (PyVal.int 5)
      let subpage_target := argGet args "subpage_target"
      if subpage_target.truthy && !subpage_target.isList then
        ⟨Except.error subpageTargetMsg, []⟩
      else
        let livecrawl := argGet args "livecrawl"
        let sp := exa_fetch_subpages env apiKey url subpages subpage_target livecrawl
        match sp.res with
        | Except.error m => ⟨Except.error m, sp.reqs⟩
        | Except.ok b => ⟨Except.ok (dumps (bundlePy b)), sp.reqs⟩
  else if name = "exa_answer_question" then
    let query := argGet args "query"
    if !query.truthy then ⟨Except.error (requiredMsg "query"), []⟩
    else
      let include_text := argGetD args "include_text" (PyVal.bool false)
      let ans := exa_answer_question env apiKey query include_text
      match ans.res with
      | Except.error m => ⟨Except.error m, ans.reqs⟩
      | Except.ok data => ⟨Except.ok (dumps data), ans.reqs⟩
  else if name = "exa_research_start" then
    let instructions := argGet args "instructions"
    if !instructions.truthy then ⟨Except.error (requiredMsg "instructions"), []⟩
    else
      let model := argGet args "model"
      let output_schema := argGet args "output_schema"
      let rs := exa_research_start env apiKey instructions model output_schema
      match rs.res with
      | Except.error m => ⟨Except.error m, rs.reqs⟩
      | Except.ok data => ⟨Except.ok (dumps data), rs.reqs⟩
  else if name = "exa_research_poll" then
    let task_id := argGet args "task_id"
    if !task_id.truthy then ⟨Except.error (requiredMsg "task_id"), []⟩
    else
      let rp := exa_research_poll env apiKey task_id
      match rp.res with
      | Except.error m => ⟨Except.error m, rp.reqs⟩
      | Except.ok data => ⟨Except.ok (dumps data), rp.reqs⟩
  else
    ⟨Except.ok (unknownToolText name), []⟩

/-- The legacy `call_tool` dispatcher defined inline in `main`: run the try
block and convert a raised exception of message `m` into the single text
item `"Error: " ++ m`. -/
def call_tool_legacy (env : Upstream) (apiKey : String) (name : String)
    (args : Args) : CallOut :=
  let d := call_tool_legacy_body env apiKey name args
  match d.res with
  | Except.ok t => ⟨[⟨"text", t⟩], d.reqs⟩
  | Except.error m => ⟨[⟨"text", "Error: " ++ m⟩], d.reqs⟩

/-- The tool catalog names declared by `list_tools`. -/
def toolNames : List String :=
  ["exa_web_search", "exa_fetch_content", "exa_fetch_contents",
   "exa_fetch_subpages", "exa_find_similar_links", "exa_answer_question",
   "exa_research_start", "exa_research_poll"]

/-- A two-item upstream search reply: the first item has neither text nor
summary, the second falls back to its summary. -/
def demoItems : List UpItem :=
  [{title := some "A", url := some "a"},
   {title := some "B", url := some "b", summary := some "bravo"}]

/-- A fetched content record for the url of the first demo item only. -/
def demoContentItem : UpItem :=
  {title := some "CA", url := some "a", text := some "FULL"}

/-- A concrete upstream behaviour for witnesses: search and findSimilar
return the two demo items, the contents endpoint returns the single record
for url `a`, the remaining endpoints return fixed bodies. -/
def envDemo : Upstream :=
  ⟨fun _ => Except.ok demoItems,
   fun _ => Except.ok [demoContentItem],
   fun _ => Except.ok demoItems,
   fun _ => Except.ok (PyVal.str "ans"),
   fun _ => Except.ok PyVal.none,
   fun _ => Except.ok PyVal.none⟩

/-- A concrete upstream behaviour whose contents endpoint returns an empty
results list. -/
def envEmptyContents : Upstream :=
  {envDemo with contents := fun _ => Except.ok []}

/-- A concrete upstream behaviour whose contents endpoint succeeds on
single-url payloads and raises on anything else, so the bulk fetch of the
enrichment strategy fails while the per-url fallback succeeds. -/
def envFallback : Upstream :=
  {envDemo with contents := fun p =>
    match p with
    | PyVal.dict [("urls", PyVal.list [PyVal.str u]), ("text", PyVal.bool true)] =>
      Except.ok [{title := some "P", url := some u, text := some ("C " ++ u)}]
    | _ => Except.error "bulk failure"}

/-- The stubs `exa_web_search` produces from `demoItems`. -/
def demoStubs : List SearchStub :=
  [⟨some "A", some "a", ""⟩, ⟨some "B", some "b", "bravo"⟩]

/-- The content records `exa_fetch_contents` produces from the demo reply. -/
def demoContents : List ContentDoc := [⟨some "CA", some "a", some "FULL"⟩]

/-- A concrete argument bag requesting a text-including search. -/
def demoArgsIT : Args :=
  [("query", PyVal.str "q"), ("include_text", PyVal.bool true)]

/-- A concrete argument bag for fetch-subpages whose `subpage_target` is the
empty string: a falsy value that is not a list. -/
def subpageArgsCex : Args :=
  [("url", PyVal.str "https://example.com"), ("subpage_target", PyVal.str "")]

/-- The search output asserted by the specification, stated in its words:
the first min(num_results, number of upstream items) items, reshaped to
`{title, url, snippet}` stubs. -/
def claimedSearchOutput (k : Int) (items : List UpItem) : List SearchStub :=
  (items.take ((min k (items.length : Int)).toNat)).map
    (fun it => ⟨it.title, it.url, snippetOf it⟩)

/-- Decidable equality for `Except`, used by concrete witnesses. -/
instance {ε α : Type} [DecidableEq ε] [DecidableEq α] : DecidableEq (Except ε α) :=
  fun a b =>
    match a, b with
    | Except.ok x, Except.ok y =>
      if h : x = y then Decidable.isTrue (by rw [h])
      else Decidable.isFalse (by intro hc; injection hc; exact h (by assumption))
    | Except.error x, Except.error y =>
      if h : x = y then Decidable.isTrue (by rw [h])
      else Decidable.isFalse (by intro hc; injection hc; exact h (by assumption))
    | Except.ok _, Except.error _ => Decidable.isFalse (by intro hc; injection hc)
    | Except.error _, Except.ok _ => Decidable.isFalse (by intro hc; injection hc)

theorem lookupLast_mem {k : Option String} {contents : List ContentDoc} {c : ContentDoc}
    (h : lookupLast k contents = some c) : c ∈ contents ∧ c.url = k := by
  induction contents with
  | nil => simp [lookupLast] at h
  | cons d rest ih =>
    simp only [lookupLast] at h
    cases hr : lookupLast k rest with
    | some r =>
      rw [hr] at h
      injection h with h
      subst h
      rcases ih hr with ⟨hm, hu⟩
      exact ⟨List.mem_cons_of_mem _ hm, hu⟩
    | none =>
      rw [hr] at h
      by_cases hd : d.url = k
      · simp [hd] at h
        subst h
        exact ⟨List.mem_cons_self _ _, hd⟩
      · simp [hd] at h

theorem lookupLast_eq_none {k : Option String} {contents : List ContentDoc}
    (h : ∀ c ∈ contents, c.url ≠ k) : lookupLast k contents = Option.none := by
  induction contents with
  | nil => rfl
  | cons d rest ih =>
    have hrest : lookupLast k rest = Option.none :=
      ih fun c hc => h c (List.mem_cons_of_mem _ hc)
    simp only [lookupLast, hrest]
    simp [h d (List.mem_cons_self _ _)]

theorem lookupLast_isSome {k : Option String} {contents : List ContentDoc}
    (h : ∃ c ∈ contents, c.url = k) : (lookupLast k contents).isSome = true := by
  induction contents with
  | nil => rcases h with ⟨c, hc, _⟩; cases hc
  | cons d rest ih =>
    rcases h with ⟨c, hc, hu⟩
    simp only [lookupLast]
    cases hr : lookupLast k rest with
    | some r => rfl
    | none =>
      rcases List.mem_cons.mp hc with hceq | hmem
      · subst hceq
        simp [hu]
      · have hsome := ih ⟨c, hmem, hu⟩
        rw [hr] at hsome
        cases hsome

theorem enrichBulk_length (results : List SearchStub) (contents : List ContentDoc) :
    (enrichBulk results contents).length = results.length := by
  simp [enrichBulk]

theorem enrichBulk_getElem (results : List SearchStub) (contents : List ContentDoc)
    (i : Nat) {stub : SearchStub} (hstub : results[i]? = some stub) :
    (enrichBulk results contents)[i]? =
      some (match lookupLast stub.url contents with
        | some c => EnrichedDoc.content c
        | Option.none => EnrichedDoc.stub stub) := by
  simp [enrichBulk, List.getElem?_map, hstub]

theorem enrichFallback_length (env : Upstream) (apiKey : String)
    (stubs : List SearchStub) :
    (enrichFallback env apiKey stubs).1.length = stubs.length := by
  induction stubs with
  | nil => rfl
  | cons item rest ih =>
    simp only [enrichFallback]
    cases (exa_fetch_content env apiKey (optPy item.url)).res with
    | ok c => simpa using ih
    | error m => simpa using ih

theorem enrichFallback_getElem (env : Upstream) (apiKey : String)
    (stubs : List SearchStub) (i : Nat) :
    (enrichFallback env apiKey stubs).1[i]? =
      (stubs[i]?).map (fun item =>
        match (exa_fetch_content env apiKey (optPy item.url)).res with
        | Except.ok c => EnrichedDoc.content c
        | Except.error _ => EnrichedDoc.stub item) := by
  induction stubs generalizing i with
  | nil => simp [enrichFallback]
  | cons item rest ih =>
    simp only [enrichFallback]
    cases hone : (exa_fetch_content env apiKey (optPy item.url)).res with
    | ok c =>
      cases i with
      | zero => simp [hone]
      | succ j => simpa using ih j
    | error m =>
      cases i with
      | zero => simp [hone]
      | succ j => simpa using ih j

theorem enrichFallback_reqs (env : Upstream) (apiKey : String)
    (stubs : List SearchStub) :
    (enrichFallback env apiKey stubs).2 =
      stubs.flatMap (fun item => (exa_fetch_content env apiKey (optPy item.url)).reqs) := by
  induction stubs with
  | nil => rfl
  | cons item rest ih =>
    simp only [enrichFallback]
    cases (exa_fetch_content env apiKey (optPy item.url)).res with
    | ok c => simpa using ih
    | error m => simpa using ih

/-- C3: for every tool name and every argument bag, the dispatcher returns
exactly one text content item, and whenever the try-block body (argument
validation, operation call, serialization) raises an exception with message
`m`, the single returned text is exactly the string `"Error: "` followed by
`m`; being a total function, the dispatcher never lets an exception escape. -/
theorem call_tool_single_item_wraps_errors (env : Upstream) (apiKey : String)
    (name : String) (args : Args) :
    (call_tool env apiKey name args).contents.length = 1 ∧
    (∀ m, (call_tool_body env apiKey name args).res = Except.error m →
      (call_tool env apiKey name args).contents = [⟨"text", "Error: " ++ m⟩]) := by
  constructor
  · cases hres : (call_tool_body env apiKey name args).res with
    | error m => simp [call_tool, hres]
    | ok t => simp [call_tool, hres]
  · intro m hm
    simp [call_tool, hm]

/-- Witness for C3 at a concrete failing call: fetching content with an
empty credential yields the single wrapped credential error. -/
theorem call_tool_single_item_wraps_errors_witness :
    (call_tool envDemo "" "exa_fetch_content" [("url", PyVal.str "x")]).contents =
      [⟨"text", "Error: " ++ exaKeyMsg⟩] :=
  (call_tool_single_item_wraps_errors envDemo "" "exa_fetch_content"
    [("url", PyVal.str "x")]).2 exaKeyMsg rfl

/-- C4: with an empty credential, each of the eight operation functions
fails with the credential error, issues no upstream request, and does so
regardless of every other argument — in particular before the urls
validation of the bulk fetch — and the error message contains the
credential variable name EXA_API_KEY. -/
theorem operations_missing_credential_fail_fast (env : Upstream)
    (q nr u it nrv ulist lc sp st ins md osch tid : PyVal) :
    exa_web_search env "" q nr = ⟨Except.error exaKeyMsg, []⟩ ∧
    exa_fetch_content env "" u = ⟨Except.error exaKeyMsg, []⟩ ∧
    exa_fetch_contents env "" ulist lc = ⟨Except.error exaKeyMsg, []⟩ ∧
    exa_fetch_subpages env "" u sp st lc = ⟨Except.error exaKeyMsg, []⟩ ∧
    exa_find_similar_links env "" u it nrv = ⟨Except.error exaKeyMsg, []⟩ ∧
    exa_answer_question env "" q it = ⟨Except.error exaKeyMsg, []⟩ ∧
    exa_research_start env "" ins md osch = ⟨Except.error exaKeyMsg, []⟩ ∧
    exa_research_poll env "" tid = ⟨Except.error exaKeyMsg, []⟩ ∧
    (∃ a b, exaKeyMsg = a ++ "EXA_API_KEY" ++ b) :=
  ⟨rfl, rfl, rfl, rfl, rfl, rfl, rfl, rfl,
    "", " environment variable is not set", by decide⟩

/-- C7: when the upstream contents endpoint returns an empty results list,
both the fetch-one and the fetch-subpages operations fail with the
no-content error; in the embedding the head of the results list is only
taken in the non-empty match arm, so no out-of-bounds access exists. -/
theorem fetch_empty_results_no_content (env : Upstream) (apiKey : String)
    (u sp st lc : PyVal) (hkey : apiKey ≠ "")
    (h1 : env.contents (contentsOnePayload u) = Except.ok [])
    (h2 : env.contents (subpagesPayload u sp st lc) = Except.ok []) :
    (exa_fetch_content env apiKey u).res = Except.error noContentMsg ∧
    (exa_fetch_subpages env apiKey u sp st lc).res = Except.error noContentMsg := by
  constructor
  · simp [exa_fetch_content, hkey, h1]
  · simp [exa_fetch_subpages, hkey, h2]

/-- Witness for C7 at a concrete empty-results upstream. -/
theorem fetch_empty_results_no_content_witness :
    (exa_fetch_content envEmptyContents "key" (PyVal.str "u")).res =
        Except.error noContentMsg ∧
    (exa_fetch_subpages envEmptyContents "key" (PyVal.str "u") (PyVal.int 5)
        PyVal.none PyVal.none).res = Except.error noContentMsg :=
  fetch_empty_results_no_content envEmptyContents "key" (PyVal.str "u")
    (PyVal.int 5) PyVal.none PyVal.none (by decide) rfl rfl

/-- C8: a tool name outside the catalog returns normally with the single
text `"Error: Unknown tool " ++ quoted name` (the claimed literal with the
name wrapped in ASCII apostrophes) and issues no upstream request. -/
theorem unknown_tool_returns_plain_text (env : Upstream) (apiKey : String)
    (name : String) (args : Args) (h : name ∉ toolNames) :
    call_tool env apiKey name args = ⟨[⟨"text", unknownToolText name⟩], []⟩ ∧
    unknownToolText name = "Error: Unknown tool " ++ squote ++ name ++ squote := by
  simp only [toolNames, List.mem_cons, List.not_mem_nil, or_false, not_or] at h
  obtain ⟨h1, h2, h3, h4, h5, h6, h7, h8⟩ := h
  refine ⟨?_, by simp [unknownToolText, quoted, String.append_assoc]⟩
  simp [call_tool, call_tool_body, h1, h2, h3, h4, h5, h6, h7, h8]

/-- Witness for C8 at a concrete unregistered name. -/
theorem unknown_tool_returns_plain_text_witness :
    call_tool envDemo "key" "no_such_tool" [] =
      ⟨[⟨"text", unknownToolText "no_such_tool"⟩], []⟩ :=
  (unknown_tool_returns_plain_text envDemo "key" "no_such_tool" [] (by decide)).1

/-- Counterexample to C5 as stated: for the negative value `num_results = -1`
and a two-item upstream reply, the code returns the Python slice `[: -1]`
(all but the last item, here one stub) while the claimed output — the first
min(num_results, number of items) items — is the empty list. -/
theorem web_search_negative_num_results_cex :
    (exa_web_search envDemo "key" (PyVal.str "q") (PyVal.int (-1))).res ≠
      Except.ok (claimedSearchOutput (-1) demoItems) := by
  decide

/-- C5 (amended to non-negative `num_results`): for every upstream search
reply and every `num_results = k ≥ 0`, the search operation returns the
first min(k, number of items) upstream items in upstream order, reshaped to
`{title, url, snippet}` with snippet = text, falling back to summary,
falling back to the empty string; and an argument bag without a
`num_results` key makes the dispatcher extraction yield the default 3. -/
theorem web_search_first_min_nonneg (env : Upstream) (apiKey : String)
    (q : PyVal) (k : Int) (items : List UpItem) (hk : 0 ≤ k)
    (hkey : apiKey ≠ "")
    (hresp : env.search (searchPayload q (PyVal.int k)) = Except.ok items) :
    (exa_web_search env apiKey q (PyVal.int k)).res =
      Except.ok (claimedSearchOutput k items) ∧
    (∀ args : Args, List.lookup "num_results" args = Option.none →
      argGetD args "num_results" (PyVal.int 3) = PyVal.int 3) := by
  constructor
  · have htake : items.take ((min k (items.length : Int)).toNat) = items.take k.toNat := by
      have hmin : (min k (items.length : Int)).toNat = min k.toNat items.length := by
        omega
      rw [hmin]
      simp [List.take_eq_take]
    simp [exa_web_search, hkey, hresp, pySliceToV, pySliceTo, hk,
      claimedSearchOutput, htake]
  · intro args h
    simp [argGetD, h]

/-- Witness for the amended C5 at `k = 2` over the demo reply. -/
theorem web_search_first_min_nonneg_witness :
    (0 : Int) ≤ 2 ∧
    (exa_web_search envDemo "key" (PyVal.str "q") (PyVal.int 2)).res =
      Except.ok (claimedSearchOutput 2 demoItems) :=
  ⟨by decide,
    (web_search_first_min_nonneg envDemo "key" (PyVal.str "q") 2 demoItems
      (by decide) (by decide) rfl).1⟩

/-- C6: for every upstream findSimilar reply, the find-similar operation
returns the first `num_results` items reshaped to `{title, url, score,
text}`; with `include_text` false the `text` field is `None` (the explicit
absent marker) even when the upstream item carried text or summary, and
with `include_text` true it is text, falling back to summary, falling back
to the empty string. -/
theorem find_similar_text_gate (env : Upstream) (apiKey : String)
    (u : PyVal) (b : Bool) (k : Int) (items : List UpItem) (hk : 0 ≤ k)
    (hkey : apiKey ≠ "")
    (hresp : env.findSimilar (findSimilarPayload u (PyVal.bool b)) =
      Except.ok items) :
    (exa_find_similar_links env apiKey u (PyVal.bool b) (PyVal.int k)).res =
      Except.ok ((items.take k.toNat).map fun it =>
        ({title := it.title, url := it.url, score := it.score,
          text := if b then some (snippetOf it) else Option.none} : SimilarDoc)) ∧
    (∀ docs,
      (exa_find_similar_links env apiKey u (PyVal.bool b) (PyVal.int k)).res =
          Except.ok docs →
      (b = false → ∀ doc ∈ docs, doc.text = Option.none) ∧
      (b = true → ∀ doc ∈ docs, ∃ it ∈ items, doc.text = some (snippetOf it))) := by
  have hmain : (exa_find_similar_links env apiKey u (PyVal.bool b) (PyVal.int k)).res =
      Except.ok ((items.take k.toNat).map fun it =>
        ({title := it.title, url := it.url, score := it.score,
          text := if b then some (snippetOf it) else Option.none} : SimilarDoc)) := by
    simp [exa_find_similar_links, hkey, hresp, pySliceToV, pySliceTo, hk,
      PyVal.truthy]
  refine ⟨hmain, ?_⟩
  intro docs hd
  rw [hmain] at hd
  injection hd with hd
  subst hd
  constructor
  · intro hb doc hdoc
    rcases List.mem_map.mp hdoc with ⟨it, _, rfl⟩
    simp [hb]
  · intro hb doc hdoc
    rcases List.mem_map.mp hdoc with ⟨it, hit, rfl⟩
    exact ⟨it, List.take_subset _ _ hit, by simp [hb]⟩

/-- Witness for C6 at both gate values over the demo reply. -/
theorem find_similar_text_gate_witness :
    (exa_find_similar_links envDemo "key" (PyVal.str "u") (PyVal.bool false)
        (PyVal.int 2)).res =
      Except.ok ((demoItems.take 2).map fun it =>
        ({title := it.title, url := it.url, score := it.score,
          text := Option.none} : SimilarDoc)) ∧
    (exa_find_similar_links envDemo "key" (PyVal.str "u") (PyVal.bool true)
        (PyVal.int 2)).res =
      Except.ok ((demoItems.take 2).map fun it =>
        ({title := it.title, url := it.url, score := it.score,
          text := some (snippetOf it)} : SimilarDoc)) := by
  constructor
  · have h := (find_similar_text_gate envDemo "key" (PyVal.str "u") false 2
      demoItems (by decide) (by decide) rfl).1
    simpa using h
  · have h := (find_similar_text_gate envDemo "key" (PyVal.str "u") true 2
      demoItems (by decide) (by decide) rfl).1
    simpa using h

/-- C1: for a search dispatched with `include_text` truthy whose bulk
contents fetch over the stub urls succeeds, the returned text serializes the
bulk-enriched list, which has exactly one entry per original stub in the
original order: a stub whose url is a key of the url lookup built from the
bulk reply becomes that fetched record, and a stub whose url is absent from
the bulk reply is kept unchanged — no stub disappears. -/
theorem search_bulk_enrichment_keeps_order (env : Upstream) (apiKey : String)
    (args : Args) (stubs : List SearchStub) (contents : List ContentDoc)
    (hq : (argGet args "query").truthy = true)
    (hit : (argGetD args "include_text" (PyVal.bool false)).truthy = true)
    (hs : (exa_web_search env apiKey (argGet args "query")
        (argGetD args "num_results" (PyVal.int 3))).res = Except.ok stubs)
    (hb : (exa_fetch_contents env apiKey (stubUrls stubs) PyVal.none).res =
        Except.ok contents) :
    (call_tool env apiKey "exa_web_search" args).contents =
      [⟨"text", dumps (PyVal.list ((enrichBulk stubs contents).map enrichedPy))⟩] ∧
    (enrichBulk stubs contents).length = stubs.length ∧
    (∀ (i : Nat) (stub : SearchStub), stubs[i]? = some stub →
      ((∀ c ∈ contents, c.url ≠ stub.url) →
        (enrichBulk stubs contents)[i]? = some (EnrichedDoc.stub stub)) ∧
      (∀ c, lookupLast stub.url contents = some c →
        c ∈ contents ∧ c.url = stub.url ∧
          (enrichBulk stubs contents)[i]? = some (EnrichedDoc.content c)) ∧
      ((∃ c ∈ contents, c.url = stub.url) →
        (lookupLast stub.url contents).isSome = true)) := by
  refine ⟨?_, enrichBulk_length stubs contents, ?_⟩
  · simp [call_tool, call_tool_body, hq, hit, hs, hb]
  · intro i stub hstub
    refine ⟨?_, ?_, lookupLast_isSome⟩
    · intro hnone
      rw [enrichBulk_getElem stubs contents i hstub, lookupLast_eq_none hnone]
    · intro c hc
      rcases lookupLast_mem hc with ⟨hm, hu⟩
      exact ⟨hm, hu, by rw [enrichBulk_getElem stubs contents i hstub, hc]⟩

/-- Witness for C1: over the demo upstream, the bulk reply covers only url
`a`, so stub A is replaced by the fetched record and stub B is kept. -/
theorem search_bulk_enrichment_keeps_order_witness :
    (call_tool envDemo "key" "exa_web_search" demoArgsIT).contents =
      [⟨"text",
        dumps (PyVal.list ((enrichBulk demoStubs demoContents).map enrichedPy))⟩] ∧
    (enrichBulk demoStubs demoContents)[1]? =
      some (EnrichedDoc.stub ⟨some "B", some "b", "bravo"⟩) :=
  ⟨(search_bulk_enrichment_keeps_order envDemo "key" demoArgsIT demoStubs
      demoContents (by decide) (by decide) (by decide) (by decide)).1,
    ((search_bulk_enrichment_keeps_order envDemo "key" demoArgsIT demoStubs
      demoContents (by decide) (by decide) (by decide) (by decide)).2.2 1
      ⟨some "B", some "b", "bravo"⟩ rfl).1 (by decide)⟩

/-- C2: for a search dispatched with `include_text` truthy whose bulk
contents fetch raises, the dispatcher falls back to one per-url fetch-one
call per original stub in original order; a stub whose per-url fetch
succeeds becomes the fetched record at its position, a stub whose per-url
fetch raises stays unchanged at its position, no individual failure aborts
the operation, and the output length and order match the original stubs. -/
theorem search_fallback_per_url (env : Upstream) (apiKey : String)
    (args : Args) (stubs : List SearchStub) (m : String)
    (hq : (argGet args "query").truthy = true)
    (hit : (argGetD args "include_text" (PyVal.bool false)).truthy = true)
    (hs : (exa_web_search env apiKey (argGet args "query")
        (argGetD args "num_results" (PyVal.int 3))).res = Except.ok stubs)
    (hb : (exa_fetch_contents env apiKey (stubUrls stubs) PyVal.none).res =
        Except.error m) :
    (call_tool env apiKey "exa_web_search" args).contents =
      [⟨"text",
        dumps (PyVal.list ((enrichFallback env apiKey stubs).1.map enrichedPy))⟩] ∧
    (enrichFallback env apiKey stubs).1.length = stubs.length ∧
    (∀ (i : Nat) (stub : SearchStub), stubs[i]? = some stub →
      (∀ c, (exa_fetch_content env apiKey (optPy stub.url)).res = Except.ok c →
        (enrichFallback env apiKey stubs).1[i]? = some (EnrichedDoc.content c)) ∧
      (∀ m2, (exa_fetch_content env apiKey (optPy stub.url)).res = Except.error m2 →
        (enrichFallback env apiKey stubs).1[i]? = some (EnrichedDoc.stub stub))) ∧
    (enrichFallback env apiKey stubs).2 =
      stubs.flatMap (fun item =>
        (exa_fetch_content env apiKey (optPy item.url)).reqs) := by
  refine ⟨?_, enrichFallback_length env apiKey stubs, ?_,
    enrichFallback_reqs env apiKey stubs⟩
  · simp [call_tool, call_tool_body, hq, hit, hs, hb]
  · intro i stub hstub
    constructor
    · intro c hc
      rw [enrichFallback_getElem env apiKey stubs i, hstub]
      simp [hc]
    · intro m2 hm2
      rw [enrichFallback_getElem env apiKey stubs i, hstub]
      simp [hm2]

/-- Witness for C2: over the fallback upstream the bulk fetch raises and
each per-url fetch succeeds, so both stubs are replaced in order. -/
theorem search_fallback_per_url_witness :
    (call_tool envFallback "key" "exa_web_search" demoArgsIT).contents =
      [⟨"text",
        dumps (PyVal.list
          ((enrichFallback envFallback "key" demoStubs).1.map enrichedPy))⟩] ∧
    (enrichFallback envFallback "key" demoStubs).1[0]? =
      some (EnrichedDoc.content ⟨some "P", some "a", some "C a"⟩) :=
  ⟨(search_fallback_per_url envFallback "key" demoArgsIT demoStubs
      "bulk failure" (by decide) (by decide) (by decide) (by decide)).1,
    ((search_fallback_per_url envFallback "key" demoArgsIT demoStubs
      "bulk failure" (by decide) (by decide) (by decide) (by decide)).2.2.1 0
      ⟨some "A", some "a", ""⟩ rfl).1 ⟨some "P", some "a", some "C a"⟩
      (by decide)⟩

/-- Counterexample to C9 as stated: for the non-list `subpage_target` value
`""` (falsy), the dispatcher guard `if subpage_target and not
isinstance(subpage_target, list)` does not fire, so the call issues one
upstream request and returns the serialized subpage bundle, not a text
error mentioning subpage_target. -/
theorem subpage_target_falsy_nonlist_cex :
    (PyVal.str "").isList = false ∧
    (call_tool envDemo "key" "exa_fetch_subpages" subpageArgsCex).reqs.length = 1 ∧
    (call_tool envDemo "key" "exa_fetch_subpages" subpageArgsCex).contents =
      [⟨"text", dumps (bundlePy ⟨⟨some "CA", some "a", some "FULL"⟩, []⟩)⟩] := by
  refine ⟨rfl, ?_, ?_⟩ <;> decide

/-- C9 (amended to truthy non-list values): a fetch-subpages call whose
arguments carry a truthy url and a truthy `subpage_target` that is not a
list returns the single text error for subpage_target — whose message
mentions subpage_target — and issues no upstream request. -/
theorem subpage_target_truthy_nonlist_rejected (env : Upstream)
    (apiKey : String) (args : Args)
    (hu : (argGet args "url").truthy = true)
    (hst : (argGet args "subpage_target").truthy = true)
    (hnl : (argGet args "subpage_target").isList = false) :
    call_tool env apiKey "exa_fetch_subpages" args =
      ⟨[⟨"text", "Error: " ++ subpageTargetMsg⟩], []⟩ ∧
    (∃ a b, subpageTargetMsg = a ++ "subpage_target" ++ b) := by
  refine ⟨?_, "Argument " ++ squote, squote ++
    " must be an array of strings if provided", by decide⟩
  simp [call_tool, call_tool_body, hu, hst, hnl]

/-- Witness for the amended C9 at a concrete truthy non-list value. -/
theorem subpage_target_truthy_nonlist_rejected_witness :
    call_tool envDemo "key" "exa_fetch_subpages"
        [("url", PyVal.str "u"), ("subpage_target", PyVal.str "about")] =
      ⟨[⟨"text", "Error: " ++ subpageTargetMsg⟩], []⟩ :=
  (subpage_target_truthy_nonlist_rejected envDemo "key"
    [("url", PyVal.str "u"), ("subpage_target", PyVal.str "about")]
    (by decide) (by decide) rfl).1

/-- Counterexample to C10 as stated: on the empty argument bag for
`exa_fetch_contents`, the builder dispatcher and the legacy dispatcher both
fail the urls validation but return different texts — the builder message
spells non-empty with the ASCII hyphen-minus, the legacy message with the
non-breaking hyphen U+2011. -/
theorem dispatchers_differ_on_empty_urls :
    (call_tool envDemo "key" "exa_fetch_contents" []).contents ≠
      (call_tool_legacy envDemo "key" "exa_fetch_contents" []).contents := by
  decide

/-- C10 (amended): the two dispatchers return identical results for every
tool name and argument bag, except when the `exa_fetch_contents` urls
validation fires (empty-or-non-list `urls`), where the two error texts
differ only in the hyphen character of the message. -/
theorem dispatchers_agree_except_urls_hyphen (env : Upstream)
    (apiKey : String) (name : String) (args : Args)
    (h : name = "exa_fetch_contents" →
      (argGet args "urls").truthy = true ∧ (argGet args "urls").isList = true) :
    call_tool env apiKey name args = call_tool_legacy env apiKey name args := by
  have hbody : call_tool_body env apiKey name args =
      call_tool_legacy_body env apiKey name args := by
    by_cases h1 : name = "exa_web_search"
    · simp [call_tool_body, call_tool_legacy_body, h1]
    by_cases h2 : name = "exa_fetch_content"
    · simp [call_tool_body, call_tool_legacy_body, h1, h2]
    by_cases h3 : name = "exa_find_similar_links"
    · simp [call_tool_body, call_tool_legacy_body, h1, h2, h3]
    by_cases h4 : name = "exa_fetch_contents"
    · obtain ⟨ht, hl⟩ := h h4
      simp [call_tool_body, call_tool_legacy_body, h1, h2, h3, h4, ht, hl]
    by_cases h5 : name = "exa_fetch_subpages"
    · simp [call_tool_body, call_tool_legacy_body, h1, h2, h3, h4, h5]
    by_cases h6 : name = "exa_answer_question"
    · simp [call_tool_body, call_tool_legacy_body, h1, h2, h3, h4, h5, h6]
    by_cases h7 : name = "exa_research_start"
    · simp [call_tool_body, call_tool_legacy_body, h1, h2, h3, h4, h5, h6, h7]
    by_cases h8 : name = "exa_research_poll"
    · simp [call_tool_body, call_tool_legacy_body, h1, h2, h3, h4, h5, h6, h7, h8]
    · simp [call_tool_body, call_tool_legacy_body, h1, h2, h3, h4, h5, h6, h7, h8]
  simp [call_tool, call_tool_legacy, hbody]

/-- Witness for the amended C10 at a concrete enriched search call. -/
theorem dispatchers_agree_except_urls_hyphen_witness :
    call_tool envDemo "key" "exa_web_search" demoArgsIT =
      call_tool_legacy envDemo "key" "exa_web_search" demoArgsIT :=
  dispatchers_agree_except_urls_hyphen envDemo "key" "exa_web_search"
    demoArgsIT (by intro hx; exact absurd hx (by decide))
